import Mathlib

/-!
Shallow embedding of the event-driven notification system
(domain state machine, Postgres repository operations, delivery
coordinator, queue consumer decision, scheduler sweep, intake service,
webhook provider classification and template rendering), translated from
the Go sources, together with theorems settling the specification claims.

Machine integers: Go `int` fields (retry counts, batch counters) are
embedded as `Int`; identifiers (UUIDs) and timestamps are abstracted as
`Nat`.  Database and queue I/O is embedded as explicit state passing over
a `Store` value plus an effect trace; every Go statement that executes a
single SQL statement emits one single-statement DB unit, and a Go
transaction emits one transactional unit.
-/

namespace EventNS

/-- `domain.Channel` (internal/domain: sms, email, push). -/
inductive Channel
  | sms
  | email
  | push
deriving DecidableEq, Repr

/-- `domain.Priority` (high, normal, low). -/
inductive Priority
  | high
  | normal
  | low
deriving DecidableEq, Repr

/-- `domain.Status` (pending, scheduled, processing, delivered, failed, cancelled). -/
inductive Status
  | pending
  | scheduled
  | processing
  | delivered
  | failed
  | cancelled
deriving DecidableEq, Repr

/-- The spec's terminal states: delivered, failed, cancelled. -/
def Status.isTerminal : Status → Bool
  | .delivered => true
  | .failed => true
  | .cancelled => true
  | _ => false

/-- `priorityMaxRetries` map: high 5, normal 3, low 2. -/
def priorityMaxRetries : Priority → Int
  | .high => 5
  | .normal => 3
  | .low => 2

/-- `channelContentLimits` map: sms 160, email 10000, push 4096 (bytes). -/
def channelContentLimits : Channel → Nat
  | .sms => 160
  | .email => 10000
  | .push => 4096

/-- `topicForPriority` map in internal/adapter/queue/publisher.go. -/
def topicForPriority : Priority → String
  | .high => "notifications.high"
  | .normal => "notifications.normal"
  | .low => "notifications.low"

/-- Domain error values (internal/domain errors.go), by sentinel. -/
inductive DomainErr
  | invalidChannel
  | invalidRecipient
  | emptyRecipient
  | emptyContent
  | contentTooLong
  | invalidPriority
  | invalidStatusTransition
  | notFoundErr
  | batchNotFound
  | batchTooLarge
  | batchEmpty
  | duplicateIdempotencyKey
  | templateNotFound
  | templateRenderFailed
deriving DecidableEq, Repr

/-- `domain.Notification` (internal/domain).  UUIDs are `Nat`,
timestamps are `Nat` seconds, `TemplateVariables` is an association
list standing for the Go `map[string]string`. -/
structure Notification where
  id : Nat
  batchId : Option Nat
  idempotencyKey : Option String
  channel : Channel
  recipient : String
  content : String
  priority : Priority
  status : Status
  scheduledAt : Option Nat
  sentAt : Option Nat
  failedAt : Option Nat
  errorMessage : Option String
  retryCount : Int
  maxRetries : Int
  providerMessageId : Option String
  templateId : Option Nat
  templateVariables : List (String × String)
  createdAt : Nat
  updatedAt : Nat
deriving DecidableEq, Repr

/-- `domain.NotificationBatch` counters (Go `int` fields as `Int`). -/
structure Batch where
  id : Nat
  totalCount : Int
  pendingCount : Int
  deliveredCount : Int
  failedCount : Int
  cancelledCount : Int
  createdAt : Nat
deriving DecidableEq, Repr

/-- `Notification.CanCancel`: only pending or scheduled rows. -/
def Notification.canCancel (n : Notification) : Bool :=
  n.status == .pending || n.status == .scheduled

/-- `Notification.MarkProcessing`. -/
def Notification.markProcessing (n : Notification) (now : Nat) : Notification :=
  { n with status := .processing, updatedAt := now }

/-- `Notification.MarkDelivered`. -/
def Notification.markDelivered (n : Notification) (providerMessageId : String) (now : Nat) :
    Notification :=
  { n with status := .delivered, providerMessageId := some providerMessageId,
           sentAt := some now, updatedAt := now }

/-- `Notification.MarkFailed`. -/
def Notification.markFailed (n : Notification) (errMsg : String) (now : Nat) : Notification :=
  { n with status := .failed, errorMessage := some errMsg,
           failedAt := some now, updatedAt := now }

/-- `Notification.IncrementRetry`. -/
def Notification.incrementRetry (n : Notification) (now : Nat) : Notification :=
  { n with retryCount := n.retryCount + 1, updatedAt := now }

/-- `Notification.HasRetriesLeft`: `RetryCount < MaxRetries`. -/
def Notification.hasRetriesLeft (n : Notification) : Bool :=
  n.retryCount < n.maxRetries

/-- `validateRecipient` E.164 check: Go regex `^\+[1-9]\d{6,14}$`. -/
def isE164 (s : String) : Bool :=
  match s.toList with
  | '+' :: c :: rest =>
      c.isDigit && c != '0' && rest.all Char.isDigit &&
        decide (6 ≤ rest.length) && decide (rest.length ≤ 14)
  | _ => false

/-- Character class `[a-zA-Z0-9._%+\-]` of the email regex's local part. -/
def isEmailLocalChar (c : Char) : Bool :=
  c.isAlphanum || c == '.' || c == '_' || c == '%' || c == '+' || c == '-'

/-- Character class `[a-zA-Z0-9.\-]` of the email regex's domain part. -/
def isEmailDomainChar (c : Char) : Bool :=
  c.isAlphanum || c == '.' || c == '-'

/-- `validateRecipient` email check: Go regex
`^[a-zA-Z0-9._%+\-]+@[a-zA-Z0-9.\-]+\.[a-zA-Z]{2,}$`
(one `@`, nonempty local part, domain with a final dot followed by at
least two letters). -/
def isEmail (s : String) : Bool :=
  match s.toList.splitOnP (· == '@') with
  | [localPart, domainPart] =>
      !localPart.isEmpty && localPart.all isEmailLocalChar &&
        (match (domainPart.reverse.splitOnP (· == '.')).head? with
         | some tldRev =>
             let tld := tldRev.reverse
             let stem := domainPart.take (domainPart.length - tld.length - 1)
             decide (2 ≤ tld.length) && tld.all Char.isAlpha &&
               decide (tld.length + 1 ≤ domainPart.length) &&
               !stem.isEmpty && stem.all isEmailDomainChar
         | none => false)
  | _ => false

/-- `validateRecipient` (internal/domain): empty check then per-channel rule. -/
def validateRecipient (ch : Channel) (recipient : String) : Except DomainErr Unit :=
  if recipient == "" then .error .emptyRecipient
  else
    match ch with
    | .sms => if isE164 recipient then .ok () else .error .invalidRecipient
    | .email => if isEmail recipient then .ok () else .error .invalidRecipient
    | .push => .ok ()

/-- `validateContent`: empty check then byte-length limit (Go `len`). -/
def validateContent (ch : Channel) (content : String) : Except DomainErr Unit :=
  if content == "" then .error .emptyContent
  else if channelContentLimits ch < content.utf8ByteSize then .error .contentTooLong
  else .ok ()

/-- `domain.NewNotification`.  Channel and priority validity are carried by
the Lean enum types, so `validateChannel`/`validatePriority` always pass;
the fresh UUIDv7 is the `id` argument. -/
def newNotification (id : Nat) (channel : Channel) (recipient content : String)
    (priority : Priority) (scheduledAt : Option Nat) (now : Nat) :
    Except DomainErr Notification := do
  let _ ← validateRecipient channel recipient
  let _ ← validateContent channel content
  .ok
    { id := id
      batchId := none
      idempotencyKey := none
      channel := channel
      recipient := recipient
      content := content
      priority := priority
      status := if scheduledAt.isSome then .scheduled else .pending
      scheduledAt := scheduledAt
      sentAt := none
      failedAt := none
      errorMessage := none
      retryCount := 0
      maxRetries := priorityMaxRetries priority
      providerMessageId := none
      templateId := none
      templateVariables := []
      createdAt := now
      updatedAt := now }

/-! ## Store and effect trace

The Postgres repository (internal/adapter/postgres/idempotency_repo.go)
is embedded as pure functions over a `Store` snapshot.  Each Go
`ExecContext` call is one SQL statement; a `DBUnit.single` models one
such statement (individually atomic in Postgres), while `DBUnit.tx`
models a `BeginTxx … Commit` transaction grouping several statements. -/

/-- One SQL statement issued by the repository layer. -/
inductive DBStmt
  | insertNotificationStmt (n : Notification)
  | insertBatchStmt (b : Batch)
  | updateStatusStmt (n : Notification)
  | cancelStmt (id : Nat)
  | incrementBatchCounterStmt (batchId : Nat) (status : Status)
deriving DecidableEq, Repr

/-- An atomic database unit: a lone statement or a transaction. -/
inductive DBUnit
  | single (s : DBStmt)
  | tx (ss : List DBStmt)
deriving DecidableEq, Repr

/-- The statements contained in a database unit. -/
def DBUnit.stmts : DBUnit → List DBStmt
  | .single s => [s]
  | .tx ss => ss

/-- Observable side effects of the application services, in program order. -/
inductive Effect
  | db (u : DBUnit)
  | publish (topic : String) (notificationId : Nat)
  | providerCall (notificationId : Nat)
  | broadcast (notificationId : Nat) (status : Status)
deriving DecidableEq, Repr

/-- Whether an effect is a queue publish (`Producer.Enqueue` → Kafka write). -/
def Effect.isPublish : Effect → Bool
  | .publish _ _ => true
  | _ => false

/-- The database snapshot: the `notifications` and `notification_batches`
tables as lists of rows. -/
structure Store where
  notifications : List Notification
  batches : List Batch
deriving DecidableEq, Repr

/-- `NotificationRepo.GetByID`: `SELECT * FROM notifications WHERE id = $1`. -/
def Store.getByID (st : Store) (id : Nat) : Option Notification :=
  st.notifications.find? (fun r => r.id == id)

/-- The column set written by `NotificationRepo.UpdateStatus`
(status, sent_at, failed_at, error_message, retry_count,
provider_message_id, updated_at) applied to a row. -/
def Notification.applyStatusColumns (r n : Notification) : Notification :=
  { r with status := n.status, sentAt := n.sentAt, failedAt := n.failedAt,
           errorMessage := n.errorMessage, retryCount := n.retryCount,
           providerMessageId := n.providerMessageId, updatedAt := n.updatedAt }

/-- `NotificationRepo.UpdateStatus`:
`UPDATE notifications SET status=…, … WHERE id=$8` — unconditional on the
prior status; the affected-row count is discarded by the Go code. -/
def Store.updateStatus (st : Store) (n : Notification) : Store :=
  { st with notifications := st.notifications.map fun r =>
      if r.id == n.id then r.applyStatusColumns n else r }

/-- `NotificationRepo.Cancel`:
`UPDATE notifications SET status='cancelled', updated_at=NOW()
WHERE id=$1 AND status IN ('pending','scheduled')`;
zero affected rows is reported as `ErrInvalidStatusTransition`. -/
def Store.cancel (st : Store) (id : Nat) (now : Nat) : Except DomainErr Store :=
  if st.notifications.any (fun r => r.id == id && r.canCancel) then
    .ok { st with notifications := st.notifications.map fun r =>
      if r.id == id && r.canCancel then
        { r with status := .cancelled, updatedAt := now }
      else r }
  else .error .invalidStatusTransition

/-- `NotificationRepo.IncrementBatchCounter`'s per-row effect:
`SET <column> = <column> + 1, pending_count = pending_count - 1`
in a single UPDATE statement; non-terminal statuses issue no SQL. -/
def Batch.applyCounter (b : Batch) (status : Status) : Batch :=
  match status with
  | .delivered => { b with deliveredCount := b.deliveredCount + 1,
                           pendingCount := b.pendingCount - 1 }
  | .failed => { b with failedCount := b.failedCount + 1,
                        pendingCount := b.pendingCount - 1 }
  | .cancelled => { b with cancelledCount := b.cancelledCount + 1,
                           pendingCount := b.pendingCount - 1 }
  | _ => b

/-- `NotificationRepo.IncrementBatchCounter` on the store: updates the
matching batch row; for statuses other than delivered/failed/cancelled the
Go code returns nil without touching the database. -/
def Store.incrementBatchCounter (st : Store) (batchId : Nat) (status : Status) : Store :=
  { st with batches := st.batches.map fun b =>
      if b.id == batchId then b.applyCounter status else b }

/-- `NotificationRepo.Create`: INSERT a notification row; a
unique-constraint collision on `idempotency_key` (constraint 23505 wrapped
by `wrapIDempotencyError`) yields `ErrDuplicateIdempotencyKey`.  UUIDv7
primary-key collisions are not modelled (fresh ids). -/
def Store.insertNotification (st : Store) (n : Notification) : Except DomainErr Store :=
  match n.idempotencyKey with
  | some k =>
      if st.notifications.any (fun r => r.idempotencyKey == some k) then
        .error .duplicateIdempotencyKey
      else .ok { st with notifications := st.notifications ++ [n] }
  | none => .ok { st with notifications := st.notifications ++ [n] }

/-- Primary keys: each notification id appears at most once (the
`notifications` table's PRIMARY KEY). -/
def Store.uniqueIds (st : Store) : Prop :=
  (st.notifications.map (·.id)).Nodup

/-! ## Provider classification (internal/adapter/provider/webhook.go) -/

/-- Errors returned by `DeliveryProvider.Send`, by sentinel wrapping:
`ErrProviderUnavailable` (network failure or transient HTTP status),
`ErrCircuitOpen` (breaker rejection), or a plain permanent error. -/
inductive SendErr
  | providerUnavailable (detail : String)
  | circuitOpen
  | permanent (msg : String)
deriving DecidableEq, Repr

/-- `app.isTransient`: `errors.Is(err, ErrProviderUnavailable) ||
errors.Is(err, ErrCircuitOpen)`. -/
def SendErr.isTransient : SendErr → Bool
  | .providerUnavailable _ => true
  | .circuitOpen => true
  | .permanent _ => false

/-- `err.Error()` of a send error, as recorded by `MarkFailed`. -/
def SendErr.message : SendErr → String
  | .providerUnavailable d => "delivery provider unavailable: " ++ d
  | .circuitOpen => "circuit breaker is open"
  | .permanent m => m

/-- `port.ProviderResponse`. -/
structure ProviderResponse where
  messageId : String
  status : String
  timestamp : String
deriving DecidableEq, Repr

/-- The provider-visible outcome of one webhook HTTP exchange: a network
error, or a response with a status code and a body that either JSON-decodes
into a `webhookResponse` or does not. -/
inductive HTTPOutcome
  | netError (detail : String)
  | response (statusCode : Nat) (body : Option ProviderResponse)
deriving DecidableEq, Repr

/-- `provider.isTransientError`: status ∈ {429, 500, 502, 503, 504}. -/
def isTransientStatus (statusCode : Nat) : Bool :=
  statusCode == 429 || statusCode == 500 || statusCode == 502 ||
    statusCode == 503 || statusCode == 504

/-- `WebhookProvider.doSend` response handling: network errors wrap
`ErrProviderUnavailable`; transient statuses wrap `ErrProviderUnavailable`;
any other status ≥ 400 is a plain permanent error; otherwise the body is
decoded, an undecodable body being replaced by a synthesized response with
a fresh UUID message id (`freshUuid`) and the current RFC3339 timestamp
(`nowTs`). -/
def doSend (outcome : HTTPOutcome) (freshUuid nowTs : String) :
    Except SendErr ProviderResponse :=
  match outcome with
  | .netError d => .error (.providerUnavailable d)
  | .response statusCode body =>
      if isTransientStatus statusCode then
        .error (.providerUnavailable ("status " ++ toString statusCode))
      else if 400 ≤ statusCode then
        .error (.permanent ("permanent provider error: status " ++ toString statusCode))
      else
        match body with
        | some w => .ok ⟨w.messageId, w.status, w.timestamp⟩
        | none => .ok ⟨freshUuid, "accepted", nowTs⟩

/-! ## Delivery coordinator (internal/app/delivery_service.go) -/

/-- The outcome class of `DeliveryService.ProcessDelivery`.  The Go
function returns an `error`; `parseError`, `notFound` and `willRetry`
correspond to non-nil returns, while `skipped`, `failedPermanently` and
`delivered` return nil. -/
inductive DeliveryResult
  | parseError
  | notFound
  | skipped
  | willRetry (e : SendErr)
  | failedPermanently (e : SendErr)
  | delivered (messageId : String)
deriving DecidableEq, Repr

/-- Whether the Go `ProcessDelivery` call returned a non-nil error. -/
def DeliveryResult.isErr : DeliveryResult → Bool
  | .parseError => true
  | .notFound => true
  | .willRetry _ => true
  | _ => false

/-- Result, post-state and effect trace of one `ProcessDelivery` call. -/
structure DeliveryOutcome where
  result : DeliveryResult
  store : Store
  effects : List Effect
deriving DecidableEq, Repr

/-- `DeliveryService.ProcessDelivery`.  `rawId = none` models a message id
that `uuid.Parse` rejects.  The provider (behind the per-channel breaker)
is the function argument `send`; repository statements are emitted as
single-statement DB units in Go program order.  `UpdateStatus` errors on
the retry/failed/delivered paths are logged and swallowed in Go, so the
store operations are total here. -/
def processDelivery (st : Store) (send : Notification → Except SendErr ProviderResponse)
    (rawId : Option Nat) (now : Nat) : DeliveryOutcome :=
  match rawId with
  | none => ⟨.parseError, st, []⟩
  | some id =>
    match st.getByID id with
    | none => ⟨.notFound, st, []⟩
    | some n =>
      if n.status == .cancelled || n.status == .delivered then
        ⟨.skipped, st, []⟩
      else
        let n1 := n.markProcessing now
        let st1 := st.updateStatus n1
        let eff1 : List Effect :=
          [.db (.single (.updateStatusStmt n1)), .providerCall n1.id]
        match send n1 with
        | .error e =>
            let n2 := n1.incrementRetry now
            if e.isTransient && n2.hasRetriesLeft then
              ⟨.willRetry e, st1.updateStatus n2,
               eff1 ++ [.db (.single (.updateStatusStmt n2))]⟩
            else
              let n3 := n2.markFailed e.message now
              let st2 := st1.updateStatus n3
              let st3 := match n3.batchId with
                | some b => st2.incrementBatchCounter b .failed
                | none => st2
              ⟨.failedPermanently e, st3,
               eff1 ++ [.db (.single (.updateStatusStmt n3))] ++
                 (match n3.batchId with
                  | some b => [.db (.single (.incrementBatchCounterStmt b .failed))]
                  | none => []) ++
                 [.broadcast n3.id n3.status]⟩
        | .ok resp =>
            let n2 := n1.markDelivered resp.messageId now
            let st2 := st1.updateStatus n2
            let st3 := match n2.batchId with
              | some b => st2.incrementBatchCounter b .delivered
              | none => st2
            ⟨.delivered resp.messageId, st3,
             eff1 ++ [.db (.single (.updateStatusStmt n2))] ++
               (match n2.batchId with
                | some b => [.db (.single (.incrementBatchCounterStmt b .delivered))]
                | none => []) ++
               [.broadcast n2.id n2.status]⟩

/-! ## Queue consumer decision (internal/adapter/queue consumer) -/

/-- The decoded Kafka payload: `{notification_id, channel, carrier}`.
`rawId = none` models a notification_id string that `uuid.Parse` rejects
inside the coordinator. -/
structure Payload where
  rawId : Option Nat
  channel : String
deriving DecidableEq, Repr

/-- What the consumer does with one fetched message. -/
structure ConsumeDecision where
  republish : Bool
  commit : Bool
  outcome : Option DeliveryOutcome
deriving DecidableEq, Repr

/-- `Consumer.consume` per-message handling: a JSON-undecodable payload
(`none`) is committed and dropped; otherwise the coordinator runs and on
ANY non-nil handler error the original payload is republished to the same
topic (`Consumer.retry`) and the offset committed; a nil result is just
committed. -/
def consumeStep (st : Store) (send : Notification → Except SendErr ProviderResponse)
    (payload : Option Payload) (now : Nat) : ConsumeDecision :=
  match payload with
  | none => ⟨false, true, none⟩
  | some p =>
      let out := processDelivery st send p.rawId now
      ⟨out.result.isErr, true, some out⟩

/-! ## Scheduler (internal/app/scheduler.go) -/

/-- The sort key of `ListDueScheduled`: the `scheduled_at` column (all
selected rows have it non-NULL, since NULL fails `scheduled_at <= NOW()`). -/
def scheduledKey (n : Notification) : Nat :=
  n.scheduledAt.getD 0

/-- The `ORDER BY scheduled_at` relation. -/
def schedLE (a b : Notification) : Prop :=
  scheduledKey a ≤ scheduledKey b

instance : DecidableRel schedLE := fun a b =>
  inferInstanceAs (Decidable (scheduledKey a ≤ scheduledKey b))

instance : IsTotal Notification schedLE :=
  ⟨fun a b => Nat.le_total (scheduledKey a) (scheduledKey b)⟩

instance : IsTrans Notification schedLE :=
  ⟨fun _ _ _ hab hbc => Nat.le_trans hab hbc⟩

/-- `NotificationRepo.ListDueScheduled`:
`SELECT * FROM notifications WHERE status = 'scheduled' AND
scheduled_at <= NOW() ORDER BY scheduled_at LIMIT $1`. -/
def Store.listDueScheduled (st : Store) (now : Nat) (limit : Nat) : List Notification :=
  (List.insertionSort schedLE
    (st.notifications.filter fun n =>
      n.status == .scheduled && n.scheduledAt.any (fun t => decide (t ≤ now)))).take limit

/-- `Scheduler.processScheduled`: list up to 100 due rows, then for each
set status to pending, persist via `UpdateStatus`, and publish to the
row's priority topic. -/
def processScheduled (st : Store) (now : Nat) : Store × List Effect :=
  (st.listDueScheduled now 100).foldl
    (fun acc n =>
      let n' := { n with status := Status.pending, updatedAt := now }
      (acc.1.updateStatus n',
       acc.2 ++ [Effect.db (.single (.updateStatusStmt n')),
                 Effect.publish (topicForPriority n'.priority) n'.id]))
    (st, [])

/-! ## Templates (internal/domain template, rendered with Go text/template)

Template rendering syntax is an external collaborator (spec §1); bodies
use the spec §6 `\x7b\x7b.Variable\x7d\x7d` substitution grammar.  The
parser below models Go text/template restricted to that grammar: literal
text interleaved with dot-field actions, an unterminated or malformed
action being a parse error.  Execution follows text/template's documented
default missing-key behaviour for maps (`missingkey=default`): a variable
absent from the map renders as `<no value>` and does NOT error. -/

/-- A parsed template part: literal text or a `\x7b\x7b.v\x7d\x7d` action. -/
inductive TmplPart
  | lit (s : String)
  | varRef (name : String)
deriving DecidableEq, Repr

/-- Characters allowed in a field name after the dot. -/
def identChar (c : Char) : Bool :=
  c.isAlphanum || c == '_'

/-- Drop leading spaces inside an action (text/template allows them). -/
def dropSpaces : List Char → List Char
  | ' ' :: cs => dropSpaces cs
  | cs => cs

/-- Parse one action after the opening braces: optional spaces, a dot, a
nonempty field name, optional spaces, and the closing braces. -/
def parseAction (cs : List Char) : Option (String × List Char) :=
  match dropSpaces cs with
  | '.' :: cs1 =>
      let ident := cs1.takeWhile identChar
      if ident.isEmpty then none
      else
        match dropSpaces (cs1.drop ident.length) with
        | '}' :: '}' :: cs3 => some (String.mk ident, cs3)
        | _ => none
  | _ => none

/-- Fuel-driven template scanner (fuel bounds the number of parts). -/
def parseTmplAux : Nat → List Char → Option (List TmplPart)
  | 0, _ => none
  | _, [] => some []
  | fuel + 1, '{' :: '{' :: rest =>
      match parseAction rest with
      | some (v, rest') => (parseTmplAux fuel rest').map (TmplPart.varRef v :: ·)
      | none => none
  | fuel + 1, c :: rest => (parseTmplAux fuel rest).map (TmplPart.lit (String.singleton c) :: ·)

/-- `template.Parse` on a body: `none` is a syntax error. -/
def parseTemplate (body : String) : Option (List TmplPart) :=
  parseTmplAux (body.toList.length + 1) body.toList

/-- `tmpl.Execute` over a parsed body with a string→string variable map:
a missing key renders as `<no value>` (text/template default). -/
def renderParts (parts : List TmplPart) (vars : List (String × String)) : String :=
  parts.foldl
    (fun acc p => acc ++ match p with
      | .lit s => s
      | .varRef v => (vars.lookup v).getD "<no value>")
    ""

/-- `domain.Template` (id, name, channel, body). -/
structure Template where
  id : Nat
  name : String
  channel : Channel
  body : String
deriving DecidableEq, Repr

/-- `Template.Render`: re-parse the body then execute; both failure modes
wrap `ErrTemplateRenderFailed`.  Execution of the modelled grammar cannot
fail (missing variables substitute `<no value>`), so only a body syntax
error produces the render error. -/
def Template.render (t : Template) (vars : List (String × String)) :
    Except DomainErr String :=
  match parseTemplate t.body with
  | none => .error .templateRenderFailed
  | some parts => .ok (renderParts parts vars)

/-- `TemplateRepo.GetByID` over an in-memory template table. -/
def findTemplate (tmpls : List Template) (id : Nat) : Except DomainErr Template :=
  match tmpls.find? (fun t => t.id == id) with
  | some t => .ok t
  | none => .error .templateNotFound

/-! ## Idempotency store (internal/adapter/postgres idempotency_repo.go) -/

/-- `idempotencyTTL = 24 * time.Hour`, in seconds. -/
def idempotencyTTL : Nat := 86400

/-- A row of the `idempotency_keys` table. -/
structure IdemEntry where
  key : String
  notificationId : Nat
  expiresAt : Nat
deriving DecidableEq, Repr

/-- `IdempotencyRepo.Check`:
`SELECT notification_id FROM idempotency_keys WHERE key = $1 AND
expires_at > NOW()`. -/
def kvCheck (kv : List IdemEntry) (key : String) (now : Nat) : Option Nat :=
  (kv.find? fun e => e.key == key && decide (now < e.expiresAt)).map (·.notificationId)

/-- `IdempotencyRepo.SetNX`: `INSERT … ON CONFLICT (key) DO NOTHING`,
reporting whether a row was inserted (the key conflicts with any existing
row, expired or not, since `key` is the primary key). -/
def kvSetNX (kv : List IdemEntry) (key : String) (notificationId : Nat) (now : Nat) :
    List IdemEntry × Bool :=
  if kv.any (fun e => e.key == key) then (kv, false)
  else (kv ++ [⟨key, notificationId, now + idempotencyTTL⟩], true)

/-! ## Intake service (internal/app notification service) -/

instance {α β : Type} [DecidableEq α] [DecidableEq β] : DecidableEq (Except α β) := fun a b =>
  match a, b with
  | .error x, .error y =>
      if h : x = y then .isTrue (by rw [h]) else .isFalse (by intro hc; cases hc; exact h rfl)
  | .ok x, .ok y =>
      if h : x = y then .isTrue (by rw [h]) else .isFalse (by intro hc; cases hc; exact h rfl)
  | .error _, .ok _ => .isFalse (by intro hc; cases hc)
  | .ok _, .error _ => .isFalse (by intro hc; cases hc)

/-- `app.CreateNotificationInput`. -/
structure CreateInput where
  channel : Channel
  recipient : String
  content : String
  priority : Priority
  scheduledAt : Option Nat
  idempotencyKey : Option String
  templateId : Option Nat
  templateVariables : List (String × String)
deriving DecidableEq, Repr

/-- Result, post-states and effect trace of `NotificationService.Create`. -/
structure CreateOutcome where
  result : Except DomainErr Notification
  store : Store
  kv : List IdemEntry
  effects : List Effect
deriving DecidableEq, Repr

/-- The idempotency fast path of `NotificationService.Create`: when the
input carries a key and `Check` hits, the existing notification is
re-read (`repo.GetByID`) and returned without side effects. -/
def idemLookup (st : Store) (kv : List IdemEntry) (input : CreateInput) (now : Nat) :
    Option (Except DomainErr Notification) :=
  match input.idempotencyKey with
  | some k =>
      (kvCheck kv k now).map fun existingId =>
        match st.getByID existingId with
        | some n => .ok n
        | none => .error .notFoundErr
  | none => none

/-- The template step of `Create`/`CreateBatch`: fetch the referenced
template and render it, otherwise keep the input content. -/
def renderContent (tmpls : List Template) (input : CreateInput) :
    Except DomainErr String :=
  match input.templateId with
  | some tid => do
      let t ← findTemplate tmpls tid
      t.render input.templateVariables
  | none => .ok input.content

/-- `NotificationService.Create`: idempotency check, template render,
domain validation, persist (surfacing the duplicate-key collision as a
bare error), best-effort `SetNX`, then publish — `EnqueueScheduled` for a
scheduled row (a Kafka no-op: scheduled rows are not published at intake)
or `Enqueue` to the priority topic otherwise. -/
def serviceCreate (st : Store) (kv : List IdemEntry) (tmpls : List Template)
    (input : CreateInput) (freshId : Nat) (now : Nat) : CreateOutcome :=
  match idemLookup st kv input now with
  | some res => ⟨res, st, kv, []⟩
  | none =>
    match renderContent tmpls input with
    | .error e => ⟨.error e, st, kv, []⟩
    | .ok content =>
      match newNotification freshId input.channel input.recipient content
          input.priority input.scheduledAt now with
      | .error e => ⟨.error e, st, kv, []⟩
      | .ok n0 =>
        let n := { n0 with idempotencyKey := input.idempotencyKey,
                           templateId := input.templateId,
                           templateVariables := input.templateVariables }
        match st.insertNotification n with
        | .error e => ⟨.error e, st, kv, []⟩
        | .ok st1 =>
          let kv1 := match input.idempotencyKey with
            | some k => (kvSetNX kv k n.id now).1
            | none => kv
          let insEff : List Effect := [.db (.single (.insertNotificationStmt n))]
          if input.scheduledAt.isSome then
            ⟨.ok n, st1, kv1, insEff⟩
          else
            ⟨.ok n, st1, kv1,
             insEff ++ [.publish (topicForPriority n.priority) n.id]⟩

/-- Sequential INSERT of notification rows inside one transaction; the
first duplicate idempotency key aborts (the whole transaction rolls
back). -/
def insertAll (st : Store) : List Notification → Except DomainErr Store
  | [] => .ok st
  | n :: ns =>
      match st.insertNotification n with
      | .error e => .error e
      | .ok st' => insertAll st' ns

/-- `NotificationRepo.CreateBatch`: one transaction inserting the batch
row and then every child row; any statement error rolls the whole
transaction back (deferred `tx.Rollback`). -/
def Store.createBatchTx (st : Store) (b : Batch) (ns : List Notification) :
    Except DomainErr Store :=
  insertAll { st with batches := st.batches ++ [b] } ns

/-- Result, post-state and effect trace of `NotificationService.CreateBatch`. -/
structure BatchOutcome where
  result : Except DomainErr (Batch × List Notification)
  store : Store
  effects : List Effect
deriving DecidableEq, Repr

/-- The per-child construction loop of `CreateBatch`: render the template
if referenced, validate via `NewNotification`, then attach the batch id,
idempotency key and template reference. -/
def buildChildren (tmpls : List Template) (batchId : Nat) (now : Nat) :
    List (CreateInput × Nat) → Except DomainErr (List Notification)
  | [] => .ok []
  | (input, id) :: rest => do
      let content ← renderContent tmpls input
      let n0 ← newNotification id input.channel input.recipient content
        input.priority input.scheduledAt now
      let n := { n0 with batchId := some batchId,
                         idempotencyKey := input.idempotencyKey,
                         templateId := input.templateId,
                         templateVariables := input.templateVariables }
      let ns ← buildChildren tmpls batchId now rest
      .ok (n :: ns)

/-- `NotificationService.CreateBatch`: reject an empty input or more than
1000 notifications before any persistence; construct the batch (total =
pending = size) and all children; persist everything in the single
`CreateBatch` repository transaction; publish per child only after the
commit (`EnqueueScheduled`, a no-op, for scheduled children).  `ids`
supplies the children's fresh UUIDv7 values. -/
def serviceCreateBatch (st : Store) (tmpls : List Template) (inputs : List CreateInput)
    (batchId : Nat) (ids : List Nat) (now : Nat) : BatchOutcome :=
  if inputs.length == 0 then ⟨.error .batchEmpty, st, []⟩
  else if 1000 < inputs.length then ⟨.error .batchTooLarge, st, []⟩
  else
    let b : Batch :=
      ⟨batchId, (inputs.length : Int), (inputs.length : Int), 0, 0, 0, now⟩
    match buildChildren tmpls batchId now (inputs.zip ids) with
    | .error e => ⟨.error e, st, []⟩
    | .ok ns =>
      match st.createBatchTx b ns with
      | .error e => ⟨.error e, st, []⟩
      | .ok st' =>
          ⟨.ok (b, ns), st',
           Effect.db (.tx (.insertBatchStmt b :: ns.map .insertNotificationStmt)) ::
             ns.flatMap fun n =>
               if n.scheduledAt.isSome then []
               else [Effect.publish (topicForPriority n.priority) n.id]⟩

/-! ## Derived observables used by the claims -/

/-- The batch-counter sum `pending + delivered + failed + cancelled`. -/
def Batch.counterSum (b : Batch) : Int :=
  b.pendingCount + b.deliveredCount + b.failedCount + b.cancelledCount

/-- The database units of an effect trace. -/
def dbUnits (effects : List Effect) : List DBUnit :=
  effects.filterMap fun e =>
    match e with
    | .db u => some u
    | _ => none

/-- Whether a statement is a terminal status UPDATE of the given child row. -/
def isTerminalUpdateFor (childId : Nat) : DBStmt → Bool
  | .updateStatusStmt n => n.id == childId && n.status.isTerminal
  | _ => false

/-- Whether a statement is the batch-counter UPDATE of the given batch. -/
def isCounterBumpFor (batchId : Nat) : DBStmt → Bool
  | .incrementBatchCounterStmt b _ => b == batchId
  | _ => false

/-- Whether some atomic database unit of the trace contains both the
child's terminal status transition and the batch-counter update — the
meaning of "the counter update is atomic with the child's terminal
transition". -/
def counterAtomicWithChild (effects : List Effect) (childId batchId : Nat) : Bool :=
  (dbUnits effects).any fun u =>
    u.stmts.any (isTerminalUpdateFor childId) && u.stmts.any (isCounterBumpFor batchId)

/-- Repeated consumption of the same notification id: `k` successive
`ProcessDelivery` calls, threading the store (the scenario of an in-log
retry loop against a persistently erroring provider). -/
def deliverAttempts (send : Notification → Except SendErr ProviderResponse)
    (rawId : Option Nat) (now : Nat) : Nat → Store → Store × List DeliveryResult
  | 0, st => (st, [])
  | k + 1, st =>
      let out := processDelivery st send rawId now
      let rest := deliverAttempts send rawId now k out.store
      (rest.1, out.result :: rest.2)

/-- Whether an `Except` is a success (a Go nil-error return). -/
def isOkE {α β : Type} : Except α β → Bool
  | .ok _ => true
  | .error _ => false

/-! ## Concrete fixtures used by counterexamples and witnesses -/

/-- A baseline valid sms notification row (id 1, priority normal,
`max_retries = 3` per `priorityMaxRetries`). -/
def baseRow : Notification :=
  { id := 1, batchId := none, idempotencyKey := none, channel := .sms,
    recipient := "+905530050594", content := "Hello", priority := .normal,
    status := .pending, scheduledAt := none, sentAt := none, failedAt := none,
    errorMessage := none, retryCount := 0, maxRetries := 3,
    providerMessageId := none, templateId := none, templateVariables := [],
    createdAt := 0, updatedAt := 0 }

/-- A provider that always answers 202-style success. -/
def okSend : Notification → Except SendErr ProviderResponse :=
  fun _ => .ok ⟨"m1", "accepted", "ts"⟩

/-- A provider that always answers HTTP 503 (transient). -/
def transientSend : Notification → Except SendErr ProviderResponse :=
  fun _ => .error (.providerUnavailable "status 503")

/-- A provider that always answers HTTP 400 (permanent). -/
def permanentSend : Notification → Except SendErr ProviderResponse :=
  fun _ => .error (.permanent "permanent provider error: status 400")

/-! ## Supporting lemmas -/

/-- `applyStatusColumns` never changes the row id. -/
theorem applyStatusColumns_id (r n : Notification) : (r.applyStatusColumns n).id = r.id :=
  rfl

/-- A row found by id indeed has that id. -/
theorem getByID_id_eq {st : Store} {id : Nat} {n : Notification}
    (h : st.getByID id = some n) : n.id = id := by
  have hp := List.find?_some h
  simpa using hp

/-- `UpdateStatus` acts on the row `GetByID` sees via `applyStatusColumns`. -/
theorem getByID_updateStatus (st : Store) (n : Notification) (id : Nat) :
    (st.updateStatus n).getByID id =
      (st.getByID id).map fun r => if r.id == n.id then r.applyStatusColumns n else r := by
  unfold Store.getByID Store.updateStatus
  rw [List.find?_map]
  have hg : ((fun r => r.id == id) ∘
        fun r => if (r.id == n.id) = true then r.applyStatusColumns n else r) =
      (fun r : Notification => r.id == id) := by
    funext r
    by_cases h : (r.id == n.id) = true <;>
      simp [Function.comp, h, Notification.applyStatusColumns]
  rw [hg]

/-- `UpdateStatus` leaves the `notification_batches` table alone. -/
theorem updateStatus_batches (st : Store) (n : Notification) :
    (st.updateStatus n).batches = st.batches :=
  rfl

/-- `IncrementBatchCounter` leaves the `notifications` table alone. -/
theorem incrementBatchCounter_notifications (st : Store) (batchId : Nat) (status : Status) :
    (st.incrementBatchCounter batchId status).notifications = st.notifications :=
  rfl

/-- The `skipped` branch of `ProcessDelivery` (status cancelled or delivered). -/
theorem processDelivery_skip {st : Store}
    {send : Notification → Except SendErr ProviderResponse} {id : Nat} {n : Notification}
    {now : Nat} (h : st.getByID id = some n)
    (hs : n.status = .cancelled ∨ n.status = .delivered) :
    processDelivery st send (some id) now = ⟨.skipped, st, []⟩ := by
  rcases hs with hs | hs <;> simp [processDelivery, h, hs]

/-- The transient-retry branch of `ProcessDelivery`. -/
theorem processDelivery_willRetry {st : Store}
    {send : Notification → Except SendErr ProviderResponse} {id : Nat} {n : Notification}
    {now : Nat} {e : SendErr} (h : st.getByID id = some n)
    (hc : n.status ≠ .cancelled) (hd : n.status ≠ .delivered)
    (hsend : send (n.markProcessing now) = .error e)
    (ht : e.isTransient = true)
    (hr : ((n.markProcessing now).incrementRetry now).hasRetriesLeft = true) :
    processDelivery st send (some id) now =
      ⟨.willRetry e,
       (st.updateStatus (n.markProcessing now)).updateStatus
         ((n.markProcessing now).incrementRetry now),
       [.db (.single (.updateStatusStmt (n.markProcessing now))), .providerCall n.id,
        .db (.single (.updateStatusStmt ((n.markProcessing now).incrementRetry now)))]⟩ := by
  simp only [processDelivery, h, hsend]
  have hcd : (n.status == Status.cancelled || n.status == Status.delivered) = false := by
    simp [hc, hd]
  simp [hcd, ht, hr]
  rfl

/-- The permanent/exhausted failure branch of `ProcessDelivery`. -/
theorem processDelivery_failed {st : Store}
    {send : Notification → Except SendErr ProviderResponse} {id : Nat} {n : Notification}
    {now : Nat} {e : SendErr} (h : st.getByID id = some n)
    (hc : n.status ≠ .cancelled) (hd : n.status ≠ .delivered)
    (hsend : send (n.markProcessing now) = .error e)
    (hnr : (e.isTransient && ((n.markProcessing now).incrementRetry now).hasRetriesLeft) = false) :
    processDelivery st send (some id) now =
      (let n3 := (((n.markProcessing now).incrementRetry now).markFailed e.message now)
       let st2 := (st.updateStatus (n.markProcessing now)).updateStatus n3
       ⟨.failedPermanently e,
        (match n3.batchId with
         | some b => st2.incrementBatchCounter b .failed
         | none => st2),
        [.db (.single (.updateStatusStmt (n.markProcessing now))), .providerCall n.id,
         .db (.single (.updateStatusStmt n3))] ++
          (match n3.batchId with
           | some b => [.db (.single (.incrementBatchCounterStmt b .failed))]
           | none => []) ++
          [.broadcast n3.id n3.status]⟩) := by
  simp only [processDelivery, h, hsend]
  have hcd : (n.status == Status.cancelled || n.status == Status.delivered) = false := by
    simp [hc, hd]
  simp [hcd, hnr]
  rfl

/-- A successful single-row INSERT appends the row. -/
theorem insertNotification_ok {st st' : Store} {n : Notification}
    (h : st.insertNotification n = .ok st') :
    st' = { st with notifications := st.notifications ++ [n] } := by
  unfold Store.insertNotification at h
  cases hk : n.idempotencyKey <;> rw [hk] at h <;> dsimp only at h
  case none =>
    cases h
    rfl
  case some k =>
    by_cases ha : (st.notifications.any fun r => r.idempotencyKey == some k) = true
    · rw [if_pos ha] at h
      cases h
    · rw [if_neg ha] at h
      cases h
      rfl

/-- A successful transactional insert of all children appends exactly the
children and touches no batch row. -/
theorem insertAll_ok {ns : List Notification} {st st' : Store}
    (h : insertAll st ns = .ok st') :
    st'.notifications = st.notifications ++ ns ∧ st'.batches = st.batches := by
  induction ns generalizing st with
  | nil =>
      unfold insertAll at h
      cases h
      simp
  | cons n rest ih =>
      unfold insertAll at h
      cases hins : st.insertNotification n <;> rw [hins] at h
      · cases h
      · rename_i st1
        obtain ⟨h1, h2⟩ := ih h
        have e1 := insertNotification_ok hins
        subst e1
        constructor
        · rw [h1]
          simp
        · exact h2

/-- Every child built by `CreateBatch`'s construction loop carries the
batch id. -/
theorem buildChildren_batchId {tmpls : List Template} {batchId now : Nat} :
    ∀ {pairs : List (CreateInput × Nat)} {ns : List Notification},
      buildChildren tmpls batchId now pairs = .ok ns →
      ∀ n ∈ ns, n.batchId = some batchId := by
  intro pairs
  induction pairs with
  | nil =>
      intro ns h n hn
      unfold buildChildren at h
      cases h
      cases hn
  | cons p rest ih =>
      intro ns h n hn
      obtain ⟨input, cid⟩ := p
      unfold buildChildren at h
      simp only [bind, Except.bind] at h
      cases hr : renderContent tmpls input <;> rw [hr] at h <;> dsimp only at h
      · cases h
      · rename_i content
        cases hn0 : newNotification cid input.channel input.recipient content
            input.priority input.scheduledAt now <;> rw [hn0] at h <;> dsimp only at h
        · cases h
        · rename_i n0
          cases hrest : buildChildren tmpls batchId now rest <;> rw [hrest] at h <;>
            dsimp only at h
          · cases h
          · rename_i tail
            cases h
            rcases List.mem_cons.mp hn with hn | hn
            · rw [hn]
            · exact ih hrest n hn

/-- The effect trace of the due-scheduled sweep, as a flat map over the
selected rows (promote-and-persist effect followed by the publish). -/
theorem processScheduled_events_aux (now : Nat) (l : List Notification) :
    ∀ (st : Store) (acc : List Effect),
      (l.foldl
        (fun acc n =>
          let n' := { n with status := Status.pending, updatedAt := now }
          (acc.1.updateStatus n',
           acc.2 ++ [Effect.db (.single (.updateStatusStmt n')),
                     Effect.publish (topicForPriority n'.priority) n'.id]))
        (st, acc)).2 =
      acc ++ l.flatMap (fun n =>
        [Effect.db (.single (.updateStatusStmt { n with status := Status.pending, updatedAt := now })),
         Effect.publish (topicForPriority n.priority) n.id]) := by
  induction l with
  | nil => intro st acc; simp
  | cons n rest ih =>
      intro st acc
      simp only [List.foldl, List.flatMap_cons]
      rw [ih]
      simp

/-- `IncrementBatchCounter` does not affect `GetByID`. -/
theorem getByID_batchMatch (st2 : Store) (ob : Option Nat) (s : Status) (id : Nat) :
    (match ob with
      | some b => st2.incrementBatchCounter b s
      | none => st2).getByID id = st2.getByID id := by
  cases ob <;> rfl

/-! ## Claim theorems -/

/-- C1 counterexample: the claim quantifies over all terminal statuses
(delivered, failed, cancelled), but `ProcessDelivery` skips only
`cancelled` and `delivered` — a re-fetched `failed` row is re-processed:
the provider is called again and the row leaves the terminal state.
Concrete input: a store holding one failed sms row (id 1, retries
exhausted) and a provider answering success. -/
theorem c1_counterexample :
    ¬ (∀ (st : Store) (send : Notification → Except SendErr ProviderResponse)
         (id : Nat) (n : Notification) (now : Nat),
        st.getByID id = some n → n.status.isTerminal = true →
        (processDelivery st send (some id) now).store = st ∧
          Effect.providerCall id ∉ (processDelivery st send (some id) now).effects) := by
  intro h
  obtain ⟨-, h2⟩ :=
    h ⟨[{ baseRow with status := .failed, retryCount := 3 }], []⟩ okSend 1
      { baseRow with status := .failed, retryCount := 3 } 5 rfl rfl
  exact h2 (by decide)

/-- C1 (amended): `ProcessDelivery` is a no-op — it returns ok without
calling the provider, without any store change and without any effect —
exactly for a re-fetched status of `cancelled` or `delivered`; a `failed`
row is NOT skipped. -/
theorem c1_skip_cancelled_delivered_only
    (st : Store) (send : Notification → Except SendErr ProviderResponse)
    (id : Nat) (n : Notification) (now : Nat)
    (h : st.getByID id = some n)
    (hs : n.status = .cancelled ∨ n.status = .delivered) :
    processDelivery st send (some id) now = ⟨.skipped, st, []⟩ ∧
      (processDelivery st send (some id) now).result.isErr = false := by
  have he := @processDelivery_skip st send id n now h hs
  exact ⟨he, by rw [he]; rfl⟩

/-- C1 witness: a concrete cancelled row is skipped without side effects. -/
theorem c1_witness :
    processDelivery ⟨[{ baseRow with status := .cancelled }], []⟩ okSend (some 1) 5 =
        ⟨.skipped, ⟨[{ baseRow with status := .cancelled }], []⟩, []⟩ ∧
      (processDelivery ⟨[{ baseRow with status := .cancelled }], []⟩ okSend
          (some 1) 5).result.isErr = false :=
  c1_skip_cancelled_delivered_only _ okSend 1 { baseRow with status := .cancelled } 5
    rfl (Or.inl rfl)

/-- C2: on a provider error the coordinator persists
`retry_count + 1`; when the error is transient and retries remain
(`retry_count + 1 < max_retries`) it returns the retryable outcome with
the row still `processing`, and when the incremented count reaches
`max_retries` it marks the row `failed` with `retry_count = max_retries`;
iterating a persistently-503 provider on a fresh normal-priority row
(max_retries 3) yields exactly two retryable outcomes and then a failure,
leaving the row `failed` with `retry_count = 3` on the 3rd attempt. -/
theorem c2_transient_retry_exhaustion :
    (∀ (st : Store) (send : Notification → Except SendErr ProviderResponse)
       (id : Nat) (n : Notification) (now : Nat) (e : SendErr),
      st.getByID id = some n →
      n.status ≠ .cancelled → n.status ≠ .delivered →
      send (n.markProcessing now) = .error e →
      e.isTransient = true →
      (((processDelivery st send (some id) now).store.getByID id).map (·.retryCount) =
          some (n.retryCount + 1)) ∧
      (n.retryCount + 1 < n.maxRetries →
        (processDelivery st send (some id) now).result = .willRetry e ∧
        (processDelivery st send (some id) now).result.isErr = true ∧
        ((processDelivery st send (some id) now).store.getByID id).map (·.status) =
          some .processing) ∧
      (n.maxRetries ≤ n.retryCount + 1 →
        (processDelivery st send (some id) now).result = .failedPermanently e ∧
        (processDelivery st send (some id) now).result.isErr = false ∧
        ((processDelivery st send (some id) now).store.getByID id).map
            (fun r => (r.status, r.retryCount)) = some (.failed, n.retryCount + 1))) ∧
    (deliverAttempts transientSend (some 1) 5 3 ⟨[baseRow], []⟩).2 =
        [.willRetry (.providerUnavailable "status 503"),
         .willRetry (.providerUnavailable "status 503"),
         .failedPermanently (.providerUnavailable "status 503")] ∧
    ((deliverAttempts transientSend (some 1) 5 3 ⟨[baseRow], []⟩).1.getByID 1).map
        (fun r => (r.status, r.retryCount)) = some (.failed, 3) := by
  refine ⟨?_, by decide, by decide⟩
  intro st send id n now e h hc hd hsend ht
  have hid := getByID_id_eq h
  by_cases hlt : n.retryCount + 1 < n.maxRetries
  · have hr : ((n.markProcessing now).incrementRetry now).hasRetriesLeft = true := by
      simp only [Notification.hasRetriesLeft, Notification.incrementRetry,
        Notification.markProcessing]
      exact decide_eq_true hlt
    have he := processDelivery_willRetry h hc hd hsend ht hr
    rw [he]
    refine ⟨?_, fun _ => ⟨rfl, rfl, ?_⟩, fun hge => absurd hlt (by omega)⟩ <;>
      rw [getByID_updateStatus, getByID_updateStatus, h] <;>
      simp [Notification.applyStatusColumns, Notification.markProcessing,
        Notification.incrementRetry, hid]
  · have hr : ((n.markProcessing now).incrementRetry now).hasRetriesLeft = false := by
      simp only [Notification.hasRetriesLeft, Notification.incrementRetry,
        Notification.markProcessing]
      exact decide_eq_false hlt
    have hnr : (e.isTransient && ((n.markProcessing now).incrementRetry now).hasRetriesLeft)
        = false := by rw [hr, Bool.and_false]
    have he := processDelivery_failed h hc hd hsend hnr
    rw [he]
    refine ⟨?_, fun hlt2 => absurd hlt2 hlt, fun _ => ⟨rfl, rfl, ?_⟩⟩ <;>
      rw [getByID_batchMatch, getByID_updateStatus, getByID_updateStatus, h] <;>
      simp [Notification.applyStatusColumns, Notification.markProcessing,
        Notification.incrementRetry, Notification.markFailed, hid]

/-- C2 witness: the 3rd failed attempt of a normal-priority row (prior
retry_count 2, max_retries 3) is marked failed with retry_count 3. -/
theorem c2_witness :
    (processDelivery ⟨[{ baseRow with retryCount := 2 }], []⟩ transientSend
        (some 1) 5).result = .failedPermanently (.providerUnavailable "status 503") ∧
      ((processDelivery ⟨[{ baseRow with retryCount := 2 }], []⟩ transientSend
          (some 1) 5).store.getByID 1).map (fun r => (r.status, r.retryCount)) =
        some (.failed, 3) := by
  have h := (c2_transient_retry_exhaustion.1 ⟨[{ baseRow with retryCount := 2 }], []⟩
      transientSend 1 { baseRow with retryCount := 2 } 5
      (.providerUnavailable "status 503") rfl (by decide) (by decide) rfl rfl).2.2
    (by decide)
  exact ⟨h.1, by simpa using h.2.2⟩

/-- C3 counterexample: in a concrete permanent-failure delivery of a
batched row (child id 1, batch 7), the batch-counter UPDATE does occur in
the trace, but no atomic database unit contains both the child's terminal
status UPDATE and the counter UPDATE — the two are separate
single-statement units, not one transaction, so the counter update is not
atomic with the child's terminal transition as the claim states. -/
theorem c3_counterexample :
    ((dbUnits (processDelivery ⟨[{ baseRow with batchId := some 7 }],
          [⟨7, 2, 2, 0, 0, 0, 0⟩]⟩ permanentSend (some 1) 5).effects).any
        fun u => u.stmts.any (isCounterBumpFor 7)) = true ∧
      counterAtomicWithChild (processDelivery ⟨[{ baseRow with batchId := some 7 }],
          [⟨7, 2, 2, 0, 0, 0, 0⟩]⟩ permanentSend (some 1) 5).effects 1 7 = false := by
  constructor <;> decide

/-- C3 (amended): every `IncrementBatchCounter` call preserves
`pending + delivered + failed + cancelled` and the `total` column of every
batch row, and for a terminal status the single UPDATE statement pairs the
one-column increment with the `pending` decrement; however the counter
update is NOT atomic with the child's terminal status transition — on the
failure path of a batched delivery the coordinator issues it as a separate
single-statement unit, no unit containing both. -/
theorem c3_batch_counter_sum :
    (∀ (st : Store) (batchId : Nat) (s : Status),
      (st.incrementBatchCounter batchId s).batches.map Batch.counterSum =
          st.batches.map Batch.counterSum ∧
        (st.incrementBatchCounter batchId s).batches.map (·.totalCount) =
          st.batches.map (·.totalCount)) ∧
    (∀ b : Batch,
      (b.applyCounter .delivered).pendingCount = b.pendingCount - 1 ∧
      (b.applyCounter .delivered).deliveredCount = b.deliveredCount + 1 ∧
      (b.applyCounter .failed).pendingCount = b.pendingCount - 1 ∧
      (b.applyCounter .failed).failedCount = b.failedCount + 1 ∧
      (b.applyCounter .cancelled).pendingCount = b.pendingCount - 1 ∧
      (b.applyCounter .cancelled).cancelledCount = b.cancelledCount + 1) ∧
    (∀ (st : Store) (send : Notification → Except SendErr ProviderResponse)
       (id : Nat) (n : Notification) (now : Nat) (e : SendErr) (b : Nat),
      st.getByID id = some n →
      n.status ≠ .cancelled → n.status ≠ .delivered →
      n.batchId = some b →
      send (n.markProcessing now) = .error e →
      (e.isTransient && ((n.markProcessing now).incrementRetry now).hasRetriesLeft) = false →
      ((dbUnits (processDelivery st send (some id) now).effects).any
          fun u => u.stmts.any (isCounterBumpFor b)) = true ∧
        counterAtomicWithChild (processDelivery st send (some id) now).effects id b
          = false) := by
  refine ⟨?_, ?_, ?_⟩
  · intro st batchId s
    constructor <;>
      · unfold Store.incrementBatchCounter
        rw [List.map_map]
        apply List.map_congr_left
        intro b _
        by_cases hb : (b.id == batchId) = true <;>
          cases s <;> simp [hb, Batch.applyCounter, Batch.counterSum, Function.comp] <;> ring
  · intro b
    refine ⟨rfl, rfl, rfl, rfl, rfl, rfl⟩
  · intro st send id n now e b h hc hd hb hsend hnr
    have he := processDelivery_failed h hc hd hsend hnr
    rw [he]
    constructor <;>
      simp [hb, dbUnits, counterAtomicWithChild, DBUnit.stmts, isCounterBumpFor,
        isTerminalUpdateFor, Status.isTerminal, Notification.markProcessing,
        Notification.incrementRetry, Notification.markFailed, List.any_cons]

/-- C3 witness: the sum-preservation applied to a concrete batch row and
the non-atomicity branch applied to a concrete batched failure. -/
theorem c3_witness :
    (Store.incrementBatchCounter ⟨[], [⟨7, 2, 2, 0, 0, 0, 0⟩]⟩ 7 .failed).batches.map
        Batch.counterSum = [⟨7, 2, 2, 0, 0, 0, 0⟩].map Batch.counterSum ∧
      counterAtomicWithChild (processDelivery ⟨[{ baseRow with batchId := some 7 }],
          [⟨7, 2, 2, 0, 0, 0, 0⟩]⟩ permanentSend (some 1) 5).effects 1 7 = false := by
  refine ⟨(c3_batch_counter_sum.1 ⟨[], [⟨7, 2, 2, 0, 0, 0, 0⟩]⟩ 7 .failed).1, ?_⟩
  exact (c3_batch_counter_sum.2.2 ⟨[{ baseRow with batchId := some 7 }],
      [⟨7, 2, 2, 0, 0, 0, 0⟩]⟩ permanentSend 1 { baseRow with batchId := some 7 } 5
      (.permanent "permanent provider error: status 400") 7 rfl (by decide) (by decide)
      rfl rfl (by decide)).2

/-- The winner row of the C4 idempotency-collision scenario. -/
def c4Winner : Notification :=
  { baseRow with id := 10, idempotencyKey := some "k" }

/-- The losing create request of the C4 scenario: same key, different
content, and no hit in the `idempotency_keys` table (the race window). -/
def c4Input : CreateInput :=
  ⟨.sms, "+905530050594", "other", .normal, none, some "k", none, []⟩

/-- C4 counterexample: when the persist hits the unique-constraint
collision on the idempotency key (the winner row exists but the
`idempotency_keys` check missed), `Create` returns the bare
`ErrDuplicateIdempotencyKey` — it does not re-read and return the winner. -/
theorem c4_counterexample :
    ¬ (∀ (st : Store) (kv : List IdemEntry) (tmpls : List Template)
         (input : CreateInput) (freshId now : Nat),
        idemLookup st kv input now = none →
        (∃ k, input.idempotencyKey = some k ∧
          (st.notifications.any fun r => r.idempotencyKey == some k) = true) →
        ∃ w ∈ st.notifications,
          (serviceCreate st kv tmpls input freshId now).result = .ok w) := by
  intro h
  obtain ⟨w, -, hres⟩ := h ⟨[c4Winner], []⟩ [] [] c4Input 11 5 rfl ⟨"k", rfl, by decide⟩
  rw [show (serviceCreate ⟨[c4Winner], []⟩ [] [] c4Input 11 5).result =
      .error .duplicateIdempotencyKey from by decide] at hres
  cases hres

/-- C4 (amended): a unique-constraint collision at persist time surfaces
`ErrDuplicateIdempotencyKey` to the caller with no side effects (no row,
no key, no publish); the winner is returned only when the pre-persist
idempotency check hits, in which case `Create` re-reads the bound
notification and returns it without side effects. -/
theorem c4_collision_returns_error :
    (∀ (st : Store) (kv : List IdemEntry) (tmpls : List Template) (input : CreateInput)
       (freshId now : Nat) (k : String) (content : String) (n0 : Notification),
      input.idempotencyKey = some k →
      idemLookup st kv input now = none →
      renderContent tmpls input = .ok content →
      newNotification freshId input.channel input.recipient content input.priority
        input.scheduledAt now = .ok n0 →
      (st.notifications.any fun r => r.idempotencyKey == some k) = true →
      serviceCreate st kv tmpls input freshId now =
        ⟨.error .duplicateIdempotencyKey, st, kv, []⟩) ∧
    (∀ (st : Store) (kv : List IdemEntry) (tmpls : List Template) (input : CreateInput)
       (freshId now : Nat) (k : String) (nid : Nat) (w : Notification),
      input.idempotencyKey = some k →
      kvCheck kv k now = some nid →
      st.getByID nid = some w →
      serviceCreate st kv tmpls input freshId now = ⟨.ok w, st, kv, []⟩) := by
  constructor
  · intro st kv tmpls input freshId now k content n0 hk hlook hrend hnew hcol
    simp only [serviceCreate, hlook, hrend, hnew]
    simp [Store.insertNotification, hk, hcol]
  · intro st kv tmpls input freshId now k nid w hk hcheck hget
    simp [serviceCreate, idemLookup, hk, hcheck, hget]

/-- C4 witness: a concrete collision returns the bare duplicate-key error,
and a concrete idempotency-check hit returns the winner. -/
theorem c4_witness :
    serviceCreate ⟨[c4Winner], []⟩ [] [] c4Input 11 5 =
        ⟨.error .duplicateIdempotencyKey, ⟨[c4Winner], []⟩, [], []⟩ ∧
      serviceCreate ⟨[c4Winner], []⟩ [⟨"k", 10, 100⟩] [] c4Input 11 5 =
        ⟨.ok c4Winner, ⟨[c4Winner], []⟩, [⟨"k", 10, 100⟩], []⟩ := by
  constructor
  · exact c4_collision_returns_error.1 ⟨[c4Winner], []⟩ [] [] c4Input 11 5 "k"
      "other" { baseRow with id := 11, content := "other", createdAt := 5, updatedAt := 5 }
      rfl rfl rfl (by decide) (by decide)
  · exact c4_collision_returns_error.2 ⟨[c4Winner], []⟩ [⟨"k", 10, 100⟩] [] c4Input 11 5
      "k" 10 c4Winner rfl (by decide) rfl

/-- C5 counterexample: a message whose notification id fails to parse is
not committed-without-republish — the coordinator returns a non-nil
error, and the consumer republishes the payload (treating it like a
transient outcome) before committing. -/
theorem c5_counterexample :
    ¬ (∀ (st : Store) (send : Notification → Except SendErr ProviderResponse)
         (now : Nat) (p : Payload),
        p.rawId = none →
        (consumeStep st send (some p) now).republish = false) := by
  intro h
  have := h ⟨[], []⟩ okSend 0 ⟨none, "sms"⟩ rfl
  exact absurd this (by decide)

/-- C5 (amended): the consumer commits every decoded message and
republishes exactly when `ProcessDelivery` returns a non-nil error; an
unparseable id and a missing row both return non-nil errors (so they ARE
republished, not dropped), while permanent provider failure, success and
the terminal skip return nil and are committed without republish.  An
undecodable JSON payload is committed and dropped without invoking the
coordinator. -/
theorem c5_republish_on_any_error :
    (∀ (st : Store) (send : Notification → Except SendErr ProviderResponse) (now : Nat),
      consumeStep st send none now = ⟨false, true, none⟩) ∧
    (∀ (st : Store) (send : Notification → Except SendErr ProviderResponse)
       (now : Nat) (p : Payload),
      (consumeStep st send (some p) now).republish =
          (processDelivery st send p.rawId now).result.isErr ∧
        (consumeStep st send (some p) now).commit = true) ∧
    (∀ (st : Store) (send : Notification → Except SendErr ProviderResponse)
       (now : Nat) (p : Payload),
      p.rawId = none →
      (processDelivery st send p.rawId now).result = .parseError ∧
        (consumeStep st send (some p) now).republish = true) ∧
    (∀ (st : Store) (send : Notification → Except SendErr ProviderResponse)
       (now : Nat) (p : Payload) (id : Nat),
      p.rawId = some id → st.getByID id = none →
      (processDelivery st send p.rawId now).result = .notFound ∧
        (consumeStep st send (some p) now).republish = true) ∧
    (∀ (st : Store) (send : Notification → Except SendErr ProviderResponse)
       (now : Nat) (p : Payload) (e : SendErr),
      (processDelivery st send p.rawId now).result = .failedPermanently e →
      (consumeStep st send (some p) now).republish = false) ∧
    (∀ (st : Store) (send : Notification → Except SendErr ProviderResponse)
       (now : Nat) (p : Payload) (m : String),
      (processDelivery st send p.rawId now).result = .delivered m →
      (consumeStep st send (some p) now).republish = false) ∧
    (∀ (st : Store) (send : Notification → Except SendErr ProviderResponse)
       (now : Nat) (p : Payload),
      (processDelivery st send p.rawId now).result = .skipped →
      (consumeStep st send (some p) now).republish = false) := by
  refine ⟨fun _ _ _ => rfl, fun _ _ _ _ => ⟨rfl, rfl⟩, ?_, ?_, ?_, ?_, ?_⟩
  · intro st send now p hp
    have h1 : (processDelivery st send p.rawId now).result = .parseError := by
      rw [hp]; rfl
    exact ⟨h1, by simp [consumeStep, h1, DeliveryResult.isErr]⟩
  · intro st send now p id hp hget
    have h1 : (processDelivery st send p.rawId now).result = .notFound := by
      rw [hp]; simp [processDelivery, hget]
    exact ⟨h1, by simp [consumeStep, h1, DeliveryResult.isErr]⟩
  · intro st send now p e h1
    simp [consumeStep, h1, DeliveryResult.isErr]
  · intro st send now p m h1
    simp [consumeStep, h1, DeliveryResult.isErr]
  · intro st send now p h1
    simp [consumeStep, h1, DeliveryResult.isErr]

/-- C5 witness: a concrete unparseable-id payload and a concrete
missing-id payload are republished; a permanent failure is committed
without republish. -/
theorem c5_witness :
    (consumeStep ⟨[], []⟩ okSend (some ⟨none, "sms"⟩) 0).republish = true ∧
      (consumeStep ⟨[], []⟩ okSend (some ⟨some 9, "sms"⟩) 0).republish = true ∧
      (consumeStep ⟨[baseRow], []⟩ permanentSend (some ⟨some 1, "sms"⟩) 5).republish
        = false := by
  refine ⟨(c5_republish_on_any_error.2.2.1 ⟨[], []⟩ okSend 0 ⟨none, "sms"⟩ rfl).2,
    (c5_republish_on_any_error.2.2.2.1 ⟨[], []⟩ okSend 0 ⟨some 9, "sms"⟩ 9 rfl rfl).2,
    c5_republish_on_any_error.2.2.2.2.1 ⟨[baseRow], []⟩ permanentSend 5 ⟨some 1, "sms"⟩
      (.permanent "permanent provider error: status 400") (by decide)⟩

/-- C6: webhook response classification — a network error is transient;
a response with status in {429, 500, 502, 503, 504} is transient; any
other status ≥ 400 is permanent; a 2xx response with a JSON-decodable
body succeeds with the body's messageId; a 2xx response with an
undecodable body succeeds with the synthesized (fresh UUID) message id. -/
theorem c6_provider_classification :
    (∀ (d u ts : String),
      doSend (.netError d) u ts = .error (.providerUnavailable d) ∧
        (SendErr.providerUnavailable d).isTransient = true) ∧
    (∀ (s : Nat) (b : Option ProviderResponse) (u ts : String),
      (s = 429 ∨ s = 500 ∨ s = 502 ∨ s = 503 ∨ s = 504) →
      doSend (.response s b) u ts =
          .error (.providerUnavailable ("status " ++ toString s)) ∧
        (SendErr.providerUnavailable ("status " ++ toString s)).isTransient = true) ∧
    (∀ (s : Nat) (b : Option ProviderResponse) (u ts : String),
      400 ≤ s → ¬(s = 429 ∨ s = 500 ∨ s = 502 ∨ s = 503 ∨ s = 504) →
      doSend (.response s b) u ts =
          .error (.permanent ("permanent provider error: status " ++ toString s)) ∧
        (SendErr.permanent ("permanent provider error: status " ++ toString s)).isTransient
          = false) ∧
    (∀ (s : Nat) (w : ProviderResponse) (u ts : String),
      200 ≤ s → s < 300 →
      doSend (.response s (some w)) u ts = .ok ⟨w.messageId, w.status, w.timestamp⟩) ∧
    (∀ (s : Nat) (u ts : String),
      200 ≤ s → s < 300 →
      doSend (.response s none) u ts = .ok ⟨u, "accepted", ts⟩) := by
  refine ⟨fun d u ts => ⟨rfl, rfl⟩, ?_, ?_, ?_, ?_⟩
  · intro s b u ts hs
    have ht : isTransientStatus s = true := by
      rcases hs with rfl | rfl | rfl | rfl | rfl <;> rfl
    exact ⟨by simp [doSend, ht], rfl⟩
  · intro s b u ts hge hs
    have ht : isTransientStatus s = false := by
      simp only [isTransientStatus, Bool.or_eq_false_iff, beq_eq_false_iff_ne, ne_eq]
      omega
    refine ⟨?_, rfl⟩
    simp [doSend, ht]
    intro hlt
    omega
  · intro s w u ts h2 h3
    have ht : isTransientStatus s = false := by
      simp only [isTransientStatus, Bool.or_eq_false_iff, beq_eq_false_iff_ne, ne_eq]
      omega
    have hlt : ¬(400 ≤ s) := by omega
    simp [doSend, ht, hlt]
  · intro s u ts h2 h3
    have ht : isTransientStatus s = false := by
      simp only [isTransientStatus, Bool.or_eq_false_iff, beq_eq_false_iff_ne, ne_eq]
      omega
    have hlt : ¬(400 ≤ s) := by omega
    simp [doSend, ht, hlt]

/-- C6 witness: concrete classifications at statuses 503, 400 and 202. -/
theorem c6_witness :
    doSend (.response 503 none) "u" "ts" =
        .error (.providerUnavailable ("status " ++ toString 503)) ∧
      doSend (.response 400 none) "u" "ts" =
        .error (.permanent ("permanent provider error: status " ++ toString 400)) ∧
      doSend (.response 202 (some ⟨"abc", "accepted", "t0"⟩)) "u" "ts" =
        .ok ⟨"abc", "accepted", "t0"⟩ ∧
      doSend (.response 202 none) "u" "ts" = .ok ⟨"u", "accepted", "ts"⟩ := by
  refine ⟨(c6_provider_classification.2.1 503 none "u" "ts" (by omega)).1,
    (c6_provider_classification.2.2.1 400 none "u" "ts" (by omega) (by omega)).1,
    c6_provider_classification.2.2.2.1 202 ⟨"abc", "accepted", "t0"⟩ "u" "ts"
      (by omega) (by omega),
    c6_provider_classification.2.2.2.2 202 "u" "ts" (by omega) (by omega)⟩

/-- C7 counterexample: `UpdateStatus` is not restricted to allowed prior
statuses — it updates by id unconditionally.  Concretely, a row whose
re-fetched status is `delivered` (terminal, hence with no allowed outgoing
transition) is overwritten to `pending` by `UpdateStatus`, instead of
being left unchanged or reported as a conflict. -/
theorem c7_counterexample :
    ¬ (∀ (st : Store) (n r : Notification),
        st.getByID n.id = some r → r.status.isTerminal = true →
        ((st.updateStatus n).getByID n.id).map (·.status) = some r.status) := by
  intro h
  have := h ⟨[{ baseRow with status := .delivered }], []⟩
    { baseRow with status := .pending } { baseRow with status := .delivered } rfl rfl
  exact absurd this (by decide)

/-- Row-wise map of the `notifications` table by an id-preserving function
commutes with `GetByID`. -/
theorem getByID_mapRows (st : Store) (g : Notification → Notification)
    (hg : ∀ r, (g r).id = r.id) (id : Nat) :
    (Store.mk (st.notifications.map g) st.batches).getByID id =
      (st.getByID id).map g := by
  unfold Store.getByID
  rw [List.find?_map]
  have hp : ((fun r => r.id == id) ∘ g) = (fun r : Notification => r.id == id) := by
    funext r
    simp [Function.comp, hg]
  rw [hp]

/-- The row transformation performed by `NotificationRepo.Cancel`'s UPDATE. -/
def cancelRow (id now : Nat) (x : Notification) : Notification :=
  if x.id == id && x.canCancel then { x with status := .cancelled, updatedAt := now } else x

/-- `cancelRow` preserves ids. -/
theorem cancelRow_id (id now : Nat) (x : Notification) : (cancelRow id now x).id = x.id := by
  unfold cancelRow
  split <;> rfl

/-- `Cancel` on a row that is no longer cancellable affects zero rows and
reports the conflict (given primary-key-unique ids). -/
theorem cancel_conflict {st : Store} {id : Nat} {r : Notification} (now : Nat)
    (hu : st.uniqueIds) (h : st.getByID id = some r) (hcc : r.canCancel = false) :
    st.cancel id now = .error .invalidStatusTransition := by
  have hany : ¬ ((st.notifications.any fun x => x.id == id && x.canCancel) = true) := by
    intro hany
    obtain ⟨x, hx, hpx⟩ := List.any_eq_true.mp hany
    rw [Bool.and_eq_true] at hpx
    have hxid : x.id = id := by simpa using hpx.1
    have hrmem : r ∈ st.notifications := List.mem_of_find?_eq_some h
    have hrid : r.id = id := getByID_id_eq h
    have hxr : x = r := List.inj_on_of_nodup_map hu hx hrmem (by rw [hxid, hrid])
    rw [hxr, hcc] at hpx
    exact Bool.false_ne_true hpx.2
  unfold Store.cancel
  rw [if_neg hany]

/-- `Cancel` of an absent id affects zero rows and reports the conflict. -/
theorem cancel_notFound {st : Store} {id : Nat} (now : Nat) (h : st.getByID id = none) :
    st.cancel id now = .error .invalidStatusTransition := by
  have hall := List.find?_eq_none.mp h
  have hany : ¬ ((st.notifications.any fun x => x.id == id && x.canCancel) = true) := by
    intro hany
    obtain ⟨x, hx, hpx⟩ := List.any_eq_true.mp hany
    rw [Bool.and_eq_true] at hpx
    exact hall x hx hpx.1
  unfold Store.cancel
  rw [if_neg hany]

/-- `Cancel` of a pending/scheduled row succeeds and persists the
`cancelled` status with the fresh `updated_at`. -/
theorem cancel_ok {st : Store} {id : Nat} {r : Notification} (now : Nat)
    (h : st.getByID id = some r) (hcc : r.canCancel = true) :
    st.cancel id now = .ok ⟨st.notifications.map (cancelRow id now), st.batches⟩ ∧
      (Store.mk (st.notifications.map (cancelRow id now)) st.batches).getByID id =
        some { r with status := .cancelled, updatedAt := now } := by
  have hrid : r.id = id := getByID_id_eq h
  have hcond : (r.id == id && r.canCancel) = true := by
    rw [Bool.and_eq_true]
    exact ⟨by simpa using hrid, hcc⟩
  constructor
  · have hany : (st.notifications.any fun x => x.id == id && x.canCancel) = true :=
      List.any_eq_true.mpr ⟨r, List.mem_of_find?_eq_some h, hcond⟩
    unfold Store.cancel
    rw [if_pos hany]
    rfl
  · rw [getByID_mapRows st (cancelRow id now) (cancelRow_id id now) id, h]
    simp [cancelRow, hcond]

/-- C7 (amended): among the repository's persisted status transitions only
`Cancel` is a conditional update (`WHERE status IN ('pending','scheduled')`)
whose zero-row outcome is reported as `ErrInvalidStatusTransition` — so a
cancel of a row that is no longer pending or scheduled (including a second
cancel of a cancelled row, and a cancel of an absent id) is a conflict,
while a pending or scheduled row is transitioned to `cancelled`;
`UpdateStatus`, by contrast, updates by id unconditionally (see the
counterexample). -/
theorem c7_cancel_is_conditional :
    (∀ (st : Store) (id now : Nat) (r : Notification),
      st.uniqueIds → st.getByID id = some r → r.canCancel = false →
      st.cancel id now = .error .invalidStatusTransition) ∧
    (∀ (st : Store) (id now : Nat),
      st.getByID id = none → st.cancel id now = .error .invalidStatusTransition) ∧
    (∀ (st : Store) (id now : Nat) (r : Notification),
      st.getByID id = some r → r.canCancel = true →
      ∃ st', st.cancel id now = .ok st' ∧
        st'.getByID id = some { r with status := .cancelled, updatedAt := now }) ∧
    (∀ (st st' : Store) (id now now' : Nat) (r : Notification),
      st.uniqueIds → st.getByID id = some r → r.canCancel = true →
      st.cancel id now = .ok st' →
      st'.cancel id now' = .error .invalidStatusTransition) := by
  refine ⟨fun st id now r hu h hcc => cancel_conflict now hu h hcc,
    fun st id now h => cancel_notFound now h, ?_, ?_⟩
  · intro st id now r h hcc
    obtain ⟨h1, h2⟩ := cancel_ok now h hcc
    exact ⟨_, h1, h2⟩
  · intro st st' id now now' r hu h hcc hok
    obtain ⟨h1, h2⟩ := cancel_ok now h hcc
    rw [h1] at hok
    cases hok
    have hu' : (Store.mk (st.notifications.map (cancelRow id now)) st.batches).uniqueIds := by
      unfold Store.uniqueIds at hu ⊢
      have : (st.notifications.map (cancelRow id now)).map (·.id) =
          st.notifications.map (·.id) := by
        rw [List.map_map]
        apply List.map_congr_left
        intro x _
        exact cancelRow_id id now x
      rw [this]
      exact hu
    exact cancel_conflict now' hu' h2 rfl

/-- A cancelled fixture row with `updated_at` 9. -/
def cancelledRow9 : Notification :=
  { baseRow with status := .cancelled, updatedAt := 9 }

/-- C7 witness: a concrete pending row cancels once and conflicts on the
second cancel; a concrete delivered row conflicts immediately. -/
theorem c7_witness :
    Store.cancel ⟨[{ baseRow with status := .delivered }], []⟩ 1 9 =
        .error .invalidStatusTransition ∧
      (Store.cancel ⟨[baseRow], []⟩ 1 9).map (fun st' => st'.getByID 1) =
        .ok (some cancelledRow9) ∧
      Store.cancel ⟨[cancelledRow9], []⟩ 1 11 = .error .invalidStatusTransition := by
  refine ⟨c7_cancel_is_conditional.1 ⟨[{ baseRow with status := .delivered }], []⟩ 1 9
      { baseRow with status := .delivered } (by unfold Store.uniqueIds; decide) rfl rfl,
    ?_, ?_⟩
  · obtain ⟨st', h1, h2⟩ :=
      c7_cancel_is_conditional.2.2.1 ⟨[baseRow], []⟩ 1 9 baseRow rfl rfl
    rw [h1]
    dsimp [Except.map]
    rw [h2]
    rfl
  · exact c7_cancel_is_conditional.1 ⟨[cancelledRow9], []⟩ 1 11 cancelledRow9
      (by unfold Store.uniqueIds; decide) rfl rfl

/-- C8: a create carrying `scheduled_at` publishes nothing — its only
effects are database writes (`EnqueueScheduled` is a Kafka no-op); the
scheduler's due sweep selects at most 100 rows, each with status
`scheduled` and a `scheduled_at` that has come due, in oldest-first
order, and its effect trace is, per selected row, the `UpdateStatus`
persisting the promotion to `pending` followed by the publish to the
row's priority topic. -/
theorem c8_scheduler_publishes_due :
    (∀ (st : Store) (kv : List IdemEntry) (tmpls : List Template) (input : CreateInput)
       (freshId now : Nat),
      input.scheduledAt.isSome = true →
      ∀ e ∈ (serviceCreate st kv tmpls input freshId now).effects, e.isPublish = false) ∧
    (∀ (st : Store) (now : Nat),
      (processScheduled st now).2 =
          (st.listDueScheduled now 100).flatMap (fun n =>
            [Effect.db (.single (.updateStatusStmt
                { n with status := Status.pending, updatedAt := now })),
             Effect.publish (topicForPriority n.priority) n.id]) ∧
        (st.listDueScheduled now 100).length ≤ 100 ∧
        (∀ n ∈ st.listDueScheduled now 100,
          n.status = .scheduled ∧ ∃ t, n.scheduledAt = some t ∧ t ≤ now) ∧
        (st.listDueScheduled now 100).Pairwise schedLE) := by
  constructor
  · intro st kv tmpls input freshId now hsched e he
    unfold serviceCreate at he
    cases hil : idemLookup st kv input now <;> rw [hil] at he <;> dsimp only at he
    · cases hr : renderContent tmpls input <;> rw [hr] at he <;> dsimp only at he
      · cases he
      · rename_i content
        cases hn : newNotification freshId input.channel input.recipient content
            input.priority input.scheduledAt now <;> rw [hn] at he <;> dsimp only at he
        · cases he
        · rename_i n0
          cases hins : st.insertNotification { n0 with
              idempotencyKey := input.idempotencyKey,
              templateId := input.templateId,
              templateVariables := input.templateVariables } <;>
            rw [hins] at he <;> dsimp only at he
          · cases he
          · rw [if_pos hsched] at he
            rcases List.mem_singleton.mp he with rfl
            rfl
    · cases he
  · intro st now
    refine ⟨?_, ?_, ?_, ?_⟩
    · unfold processScheduled
      rw [processScheduled_events_aux]
      rfl
    · exact List.length_take_le 100 _
    · intro n hn
      have hn1 : n ∈ List.insertionSort schedLE
          (st.notifications.filter fun x =>
            x.status == .scheduled && x.scheduledAt.any (fun t => decide (t ≤ now))) :=
        (List.take_sublist 100 _).subset hn
      have hn2 := (List.perm_insertionSort schedLE _).mem_iff.mp hn1
      obtain ⟨-, hcond⟩ := List.mem_filter.mp hn2
      rw [Bool.and_eq_true] at hcond
      refine ⟨by simpa using hcond.1, ?_⟩
      cases hsa : n.scheduledAt with
      | none => rw [hsa] at hcond; cases hcond.2
      | some t =>
          refine ⟨t, rfl, ?_⟩
          have := hcond.2
          rw [hsa] at this
          simpa using this
    · exact List.Pairwise.sublist (List.take_sublist 100 _)
        (List.sorted_insertionSort schedLE _)

/-- A scheduled fixture row. -/
def schedRow (i t : Nat) : Notification :=
  { baseRow with id := i, status := .scheduled, scheduledAt := some t }

/-- A store with three scheduled rows (due at 10, 30 and 99). -/
def c8Store : Store :=
  ⟨[schedRow 1 30, schedRow 2 10, schedRow 3 99], []⟩

/-- C8 witness: a concrete scheduled create has no publish effect, and a
concrete sweep at time 40 promotes-and-publishes the two due rows oldest
first (id 2 due at 10, then id 1 due at 30), leaving the row due at 99
untouched. -/
theorem c8_witness :
    ((serviceCreate ⟨[], []⟩ [] []
        ⟨.sms, "+905530050594", "hi", .normal, some 50, none, none, []⟩ 11 5).effects.all
      fun e => !e.isPublish) = true ∧
      (processScheduled c8Store 40).2 =
        [Effect.db (.single (.updateStatusStmt
            { schedRow 2 10 with status := .pending, updatedAt := 40 })),
         Effect.publish "notifications.normal" 2,
         Effect.db (.single (.updateStatusStmt
            { schedRow 1 30 with status := .pending, updatedAt := 40 })),
         Effect.publish "notifications.normal" 1] := by
  constructor
  · apply List.all_eq_true.mpr
    intro e he
    have h := c8_scheduler_publishes_due.1 ⟨[], []⟩ [] []
      ⟨.sms, "+905530050594", "hi", .normal, some 50, none, none, []⟩ 11 5 rfl e he
    simp [h]
  · have h := (c8_scheduler_publishes_due.2 c8Store 40).1
    rw [h]
    decide

/-- C9: `CreateBatch` rejects an empty input (`ErrBatchEmpty`) and more
than 1000 inputs (`ErrBatchTooLarge`) with the store untouched and
nothing published; every error outcome leaves the store untouched with no
effects (all-or-nothing); and a successful outcome of any accepted size
(1..1000) persists the batch row (total = pending = size) and all
children — each carrying the batch id — appended to the store by one
single transactional DB unit, with every remaining effect a per-child
publish emitted only after that transaction. -/
theorem c9_batch_all_or_nothing :
    ∀ (st : Store) (tmpls : List Template) (inputs : List CreateInput)
      (batchId : Nat) (ids : List Nat) (now : Nat),
      (inputs = [] →
        serviceCreateBatch st tmpls inputs batchId ids now =
          ⟨.error .batchEmpty, st, []⟩) ∧
      (1000 < inputs.length →
        serviceCreateBatch st tmpls inputs batchId ids now =
          ⟨.error .batchTooLarge, st, []⟩) ∧
      (∀ e, (serviceCreateBatch st tmpls inputs batchId ids now).result = .error e →
        (serviceCreateBatch st tmpls inputs batchId ids now).store = st ∧
          (serviceCreateBatch st tmpls inputs batchId ids now).effects = []) ∧
      (∀ b ns, (serviceCreateBatch st tmpls inputs batchId ids now).result = .ok (b, ns) →
        1 ≤ inputs.length ∧ inputs.length ≤ 1000 ∧
          b.totalCount = (inputs.length : Int) ∧ b.pendingCount = (inputs.length : Int) ∧
          (∀ n ∈ ns, n.batchId = some batchId) ∧
          (serviceCreateBatch st tmpls inputs batchId ids now).store.batches =
            st.batches ++ [b] ∧
          (serviceCreateBatch st tmpls inputs batchId ids now).store.notifications =
            st.notifications ++ ns ∧
          ∃ rest, (serviceCreateBatch st tmpls inputs batchId ids now).effects =
              Effect.db (.tx (.insertBatchStmt b :: ns.map .insertNotificationStmt))
                :: rest ∧
            ∀ e ∈ rest, e.isPublish = true) := by
  intro st tmpls inputs batchId ids now
  by_cases h0 : (inputs.length == 0) = true
  · have hnil : inputs = [] := List.length_eq_zero.mp (by simpa using h0)
    have heq : serviceCreateBatch st tmpls inputs batchId ids now =
        ⟨.error .batchEmpty, st, []⟩ := by
      unfold serviceCreateBatch
      rw [if_pos h0]
    refine ⟨fun _ => heq, fun hlen => ?_, fun e hres => by rw [heq]; exact ⟨rfl, rfl⟩,
      fun b ns hres => ?_⟩
    · rw [hnil] at hlen
      exact absurd hlen (by simp)
    · rw [heq] at hres
      cases hres
  · by_cases h1 : 1000 < inputs.length
    · have heq : serviceCreateBatch st tmpls inputs batchId ids now =
          ⟨.error .batchTooLarge, st, []⟩ := by
        unfold serviceCreateBatch
        rw [if_neg h0, if_pos h1]
      refine ⟨fun hnil => ?_, fun _ => heq,
        fun e hres => by rw [heq]; exact ⟨rfl, rfl⟩, fun b ns hres => ?_⟩
      · rw [hnil] at h0
        exact absurd rfl h0
      · rw [heq] at hres
        cases hres
    · have heq0 : serviceCreateBatch st tmpls inputs batchId ids now =
          (match buildChildren tmpls batchId now (inputs.zip ids) with
           | .error e => ⟨.error e, st, []⟩
           | .ok ns =>
             match st.createBatchTx
                 ⟨batchId, (inputs.length : Int), (inputs.length : Int), 0, 0, 0, now⟩ ns with
             | .error e => ⟨.error e, st, []⟩
             | .ok st' =>
                 ⟨.ok (⟨batchId, (inputs.length : Int), (inputs.length : Int),
                     0, 0, 0, now⟩, ns), st',
                  Effect.db (.tx (.insertBatchStmt
                      ⟨batchId, (inputs.length : Int), (inputs.length : Int), 0, 0, 0, now⟩
                    :: ns.map .insertNotificationStmt)) ::
                    ns.flatMap fun n =>
                      if n.scheduledAt.isSome then []
                      else [Effect.publish (topicForPriority n.priority) n.id]⟩) := by
        unfold serviceCreateBatch
        rw [if_neg h0, if_neg h1]
      cases hbc : buildChildren tmpls batchId now (inputs.zip ids) <;>
        rw [hbc] at heq0 <;> dsimp only at heq0
      · refine ⟨fun hnil => by rw [hnil] at h0; exact absurd rfl h0, fun hlen => absurd hlen h1,
          fun e hres => by rw [heq0]; exact ⟨rfl, rfl⟩, fun b ns hres => ?_⟩
        rw [heq0] at hres
        cases hres
      · rename_i ns0
        cases htx : st.createBatchTx
            ⟨batchId, (inputs.length : Int), (inputs.length : Int), 0, 0, 0, now⟩ ns0 <;>
          rw [htx] at heq0 <;> dsimp only at heq0
        · refine ⟨fun hnil => by rw [hnil] at h0; exact absurd rfl h0,
            fun hlen => absurd hlen h1,
            fun e hres => by rw [heq0]; exact ⟨rfl, rfl⟩, fun b ns hres => ?_⟩
          rw [heq0] at hres
          cases hres
        · rename_i st1
          refine ⟨fun hnil => by rw [hnil] at h0; exact absurd rfl h0,
            fun hlen => absurd hlen h1, fun e hres => ?_, fun b ns hres => ?_⟩
          · rw [heq0] at hres
            cases hres
          · rw [heq0] at hres
            dsimp only at hres
            obtain ⟨hb, hns⟩ : (⟨batchId, (inputs.length : Int), (inputs.length : Int),
                0, 0, 0, now⟩ : Batch) = b ∧ ns0 = ns := by
              cases hres
              exact ⟨rfl, rfl⟩
            subst hb
            subst hns
            have hins := insertAll_ok htx
            have h0' : inputs.length ≠ 0 := by simpa using h0
            have h1' : inputs.length ≤ 1000 := Nat.le_of_not_lt h1
            refine ⟨by omega, h1', rfl, rfl, buildChildren_batchId hbc, ?_, ?_, ?_⟩
            · rw [heq0]
              exact hins.2
            · rw [heq0]
              exact hins.1
            · rw [heq0]
              refine ⟨_, rfl, ?_⟩
              intro e he
              obtain ⟨n, -, hn⟩ := List.mem_flatMap.mp he
              by_cases hsch : n.scheduledAt.isSome
              · rw [if_pos hsch] at hn
                cases hn
              · rw [if_neg hsch] at hn
                rcases List.mem_singleton.mp hn with rfl
                rfl

/-- A valid single batch-create input. -/
def c9Input : CreateInput :=
  ⟨.sms, "+905530050594", "hi", .normal, none, none, none, []⟩

/-- The child row produced for `c9Input` in batch 5 with fresh id 21 at
time 9. -/
def c9Child : Notification :=
  { baseRow with id := 21, batchId := some 5, content := "hi",
                 createdAt := 9, updatedAt := 9 }

/-- C9 witness: size 0 rejected, size 1001 rejected, and a size-1 batch
persists the batch row (total = pending = 1) and the child with the batch
id. -/
theorem c9_witness :
    (serviceCreateBatch ⟨[], []⟩ [] [] 5 [] 9).result = .error .batchEmpty ∧
      (serviceCreateBatch ⟨[], []⟩ [] (List.replicate 1001 c9Input) 5 [] 9).result =
        .error .batchTooLarge ∧
      (serviceCreateBatch ⟨[], []⟩ [] [c9Input] 5 [21] 9).store.notifications =
        [c9Child] ∧
      (serviceCreateBatch ⟨[], []⟩ [] [c9Input] 5 [21] 9).store.batches =
        [⟨5, 1, 1, 0, 0, 0, 9⟩] := by
  refine ⟨?_, ?_, ?_, ?_⟩
  · rw [(c9_batch_all_or_nothing ⟨[], []⟩ [] [] 5 [] 9).1 rfl]
  · rw [(c9_batch_all_or_nothing ⟨[], []⟩ [] (List.replicate 1001 c9Input) 5 [] 9).2.1
      (by rw [List.length_replicate]; omega)]
  · have h := (c9_batch_all_or_nothing ⟨[], []⟩ [] [c9Input] 5 [21] 9).2.2.2
      ⟨5, 1, 1, 0, 0, 0, 9⟩ [c9Child] (by decide)
    rw [h.2.2.2.2.2.2.1]
    rfl
  · have h := (c9_batch_all_or_nothing ⟨[], []⟩ [] [c9Input] 5 [21] 9).2.2.2
      ⟨5, 1, 1, 0, 0, 0, 9⟩ [c9Child] (by decide)
    rw [h.2.2.2.2.2.1]
    rfl

/-- A stored template whose body references the variable `Name`
(body `Hello \x7b\x7b.Name\x7d\x7d`). -/
def c10Tmpl : Template :=
  ⟨1, "welcome", .sms, "Hello \x7b\x7b.Name\x7d\x7d"⟩

/-- A stored template with a body syntax error (unclosed action,
body `Hello \x7b\x7b.Name`). -/
def c10Broken : Template :=
  ⟨2, "broken", .sms, "Hello \x7b\x7b.Name"⟩

/-- A create request referencing template 1 with an empty variable map. -/
def c10Input : CreateInput :=
  ⟨.sms, "+905530050594", "x", .normal, none, none, some 1, []⟩

/-- A create request referencing the broken template 2. -/
def c10BrokenInput : CreateInput :=
  ⟨.sms, "+905530050594", "x", .normal, none, none, some 2, []⟩

/-- C10 counterexample: a body variable missing from the supplied map
does NOT fail the create — text/template's default missing-key behaviour
substitutes `<no value>`, the render succeeds and the create returns ok.
Concrete input: template body referencing `Name`, empty variable map. -/
theorem c10_counterexample :
    ¬ (∀ (st : Store) (kv : List IdemEntry) (tmpls : List Template) (input : CreateInput)
         (freshId now : Nat) (tid : Nat) (t : Template) (v : String)
         (parts : List TmplPart),
        input.templateId = some tid →
        findTemplate tmpls tid = .ok t →
        parseTemplate t.body = some parts →
        TmplPart.varRef v ∈ parts →
        input.templateVariables.lookup v = none →
        ∃ e, (serviceCreate st kv tmpls input freshId now).result = .error e) := by
  intro h
  obtain ⟨e, he⟩ := h ⟨[], []⟩ [] [c10Tmpl] c10Input 11 5 1 c10Tmpl "Name"
    [.lit "H", .lit "e", .lit "l", .lit "l", .lit "o", .lit " ", .varRef "Name"]
    rfl rfl (by decide) (by decide) rfl
  have hok : isOkE (serviceCreate ⟨[], []⟩ [] [c10Tmpl] c10Input 11 5).result = true := by
    decide
  rw [he] at hok
  simp [isOkE] at hok

/-- C10 (amended): rendering fails exactly on a body syntax error — once
the body parses, rendering succeeds for every variable map, a missing
variable substituting `<no value>`; and when the referenced template's
body fails to parse, `Create` returns `ErrTemplateRenderFailed` with
nothing persisted or published. -/
theorem c10_render_fails_only_on_bad_body :
    (∀ (t : Template) (vars : List (String × String)),
      isOkE (t.render vars) = (parseTemplate t.body).isSome) ∧
    (∀ (st : Store) (kv : List IdemEntry) (tmpls : List Template) (input : CreateInput)
       (freshId now : Nat) (tid : Nat) (t : Template),
      idemLookup st kv input now = none →
      input.templateId = some tid →
      findTemplate tmpls tid = .ok t →
      parseTemplate t.body = none →
      serviceCreate st kv tmpls input freshId now =
        ⟨.error .templateRenderFailed, st, kv, []⟩) := by
  constructor
  · intro t vars
    unfold Template.render
    cases h : parseTemplate t.body <;> simp [isOkE]
  · intro st kv tmpls input freshId now tid t hlook htid hft hparse
    have hrend : renderContent tmpls input = .error .templateRenderFailed := by
      unfold renderContent
      rw [htid]
      simp [bind, Except.bind, hft, Template.render, hparse]
    simp only [serviceCreate, hlook, hrend]

/-- C10 witness: the well-formed template renders with an empty map (no
failure), and a create referencing the broken template fails with the
render error and no side effects. -/
theorem c10_witness :
    isOkE (Template.render c10Tmpl []) = true ∧
      serviceCreate ⟨[], []⟩ [] [c10Broken] c10BrokenInput 11 5 =
        ⟨.error .templateRenderFailed, ⟨[], []⟩, [], []⟩ := by
  constructor
  · rw [c10_render_fails_only_on_bad_body.1 c10Tmpl []]
    decide
  · exact c10_render_fails_only_on_bad_body.2 ⟨[], []⟩ [] [c10Broken] c10BrokenInput 11 5
      2 c10Broken rfl rfl rfl (by decide)

end EventNS

